import Mathlib

/-!
Shallow embedding of the workflow orchestration core of `botfusions/renkler`
(`mcp-n8n-integration/sanzo_n8n_mcp/workflow_manager.py` together with the data
model of `sanzo_n8n_mcp/models.py`).

Conventions of the embedding:
* `datetime` values and `timedelta`s are rationals, measured in seconds
  (`timedelta(hours=1)` is `3600`, `timedelta(days=d)` is `d * 86400`).
* Python dictionaries with string keys are association lists with Python's
  `dict.update` semantics (`dictSet` replaces in place or appends).
* Python `set`/`dict` containers of the queue are lists with the corresponding
  insert/discard/overwrite operations.
* `defaultdict(list)` keyed by the four-element `WorkflowType` enumeration is a
  total function `WorkflowType → List WorkflowExecution` (missing key = `[]`).
* Fallible control flow (an uncaught Python exception) is `Except String`.
-/

namespace Sanzo

/-- Opaque JSON-ish values stored in workflow payload dictionaries. -/
inductive Value where
  | str (s : String)
  | num (n : Int)
  deriving DecidableEq

/-- Python `Dict[str, Any]` as an association list. -/
abbrev Dict := List (String × Value)

/-- Python `d[k] = v`: replace the binding in place if the key is present,
otherwise append it (insertion order preserved, as in CPython dicts). -/
def dictSet (d : Dict) (k : String) (v : Value) : Dict :=
  if d.any (fun p => p.1 = k) then
    d.map (fun p => if p.1 = k then (k, v) else p)
  else
    d ++ [(k, v)]

/-- Python `d.update(u)`: fold `dictSet` over the entries of `u`. -/
def dictUpdate (d : Dict) (u : Dict) : Dict :=
  u.foldl (fun acc p => dictSet acc p.1 p.2) d

/-- `models.WorkflowType`: the fixed four-element workflow enumeration. -/
inductive WorkflowType where
  | customerAnalysis
  | followUpSequences
  | crmLeadManagement
  | photoAnalysisProcessing
  deriving DecidableEq

/-- `models.WorkflowStatus`. -/
inductive WorkflowStatus where
  | pending
  | running
  | completed
  | failed
  | cancelled
  | timeout
  deriving DecidableEq

/-- Terminal statuses: all but `pending` and `running` (spec §3). -/
def WorkflowStatus.isTerminal : WorkflowStatus → Bool
  | .pending => false
  | .running => false
  | _ => true

/-- `models.WorkflowExecution`: the execution record. Timestamps and durations
are rationals (seconds). -/
structure WorkflowExecution where
  execution_id : String
  workflow_type : WorkflowType
  status : WorkflowStatus
  input_data : Dict
  output_data : Option Dict := none
  error_message : Option String := none
  started_at : ℚ
  completed_at : Option ℚ := none
  duration_seconds : Option ℚ := none
  n8n_execution_id : Option String := none
  correlation_id : Option String := none
  retry_count : Nat := 0
  deriving DecidableEq

/-- `models.WorkflowMetrics`. -/
structure WorkflowMetrics where
  workflow_type : WorkflowType
  total_executions : Nat
  successful_executions : Nat
  failed_executions : Nat
  average_duration_seconds : ℚ
  success_rate : ℚ
  last_execution : Option ℚ
  deriving DecidableEq

/-- `models.WorkflowTriggerConfig`. -/
structure WorkflowTriggerConfig where
  trigger_name : String
  workflow_type : WorkflowType
  trigger_conditions : Dict
  trigger_schedule : Option String := none
  enabled : Bool := true
  max_executions_per_hour : Nat := 60
  data_template : Dict := []
  deriving DecidableEq

/-- `models.BatchWorkflowRequest`. -/
structure BatchWorkflowRequest where
  workflows : List WorkflowType
  shared_data : Dict := []
  individual_data : List (WorkflowType × Dict) := []
  delay_between_workflows : Nat := 0
  fail_fast : Bool := false
  correlation_id : Option String := none

/-- `models.BatchWorkflowResult`. -/
structure BatchWorkflowResult where
  batch_id : String
  total_workflows : Nat
  successful_workflows : Nat
  failed_workflows : Nat
  execution_results : List WorkflowExecution
  started_at : ℚ
  completed_at : Option ℚ
  total_duration_seconds : Option ℚ
  deriving DecidableEq

/-! ### `WorkflowQueue` (workflow_manager.py lines 25–64)

The deque of pending executions, the running-id set and the completed map, by
value.  `max_concurrent` is the constructor constant 5, `maxlen` the `max_size`
constructor argument. -/

/-- State of `WorkflowQueue`. -/
structure WorkflowQueue where
  queue : List WorkflowExecution
  maxlen : Nat
  running_workflows : List String
  completed_workflows : List (String × WorkflowExecution)
  max_concurrent : Nat

/-- `WorkflowQueue.__init__(max_size)`. -/
def WorkflowQueue.init (max_size : Nat := 1000) : WorkflowQueue :=
  { queue := [], maxlen := max_size, running_workflows := [],
    completed_workflows := [], max_concurrent := 5 }

/-- `WorkflowQueue.add_workflow` (lines 34–39): reject without mutation when
`len(queue) >= maxlen`, else append and accept. -/
def WorkflowQueue.add_workflow (q : WorkflowQueue) (execution : WorkflowExecution) :
    Bool × WorkflowQueue :=
  if q.queue.length ≥ q.maxlen then
    (false, q)
  else
    (true, { q with queue := q.queue ++ [execution] })

/-- `WorkflowQueue.get_next_workflow` (lines 41–47): `None` when the running
set has reached `max_concurrent` or the deque is empty, otherwise pop the
head. -/
def WorkflowQueue.get_next_workflow (q : WorkflowQueue) :
    Option (WorkflowExecution × WorkflowQueue) :=
  if q.running_workflows.length ≥ q.max_concurrent then
    none
  else
    match q.queue with
    | [] => none
    | w :: rest => some (w, { q with queue := rest })

/-- Python `set.add` on the running-id list (no duplicate insertion). -/
def setAdd (s : List String) (x : String) : List String :=
  if x ∈ s then s else x :: s

/-- Python `set.discard`. -/
def setDiscard (s : List String) (x : String) : List String :=
  s.filter (fun y => y ≠ x)

/-- Python `dict[k] = v` on the completed map. -/
def mapInsert (m : List (String × WorkflowExecution)) (k : String)
    (v : WorkflowExecution) : List (String × WorkflowExecution) :=
  if m.any (fun p => p.1 = k) then
    m.map (fun p => if p.1 = k then (k, v) else p)
  else
    m ++ [(k, v)]

/-- `WorkflowQueue.mark_running` (lines 49–51). -/
def WorkflowQueue.mark_running (q : WorkflowQueue) (execution_id : String) :
    WorkflowQueue :=
  { q with running_workflows := setAdd q.running_workflows execution_id }

/-- `WorkflowQueue.mark_completed` (lines 53–56). -/
def WorkflowQueue.mark_completed (q : WorkflowQueue) (execution : WorkflowExecution) :
    WorkflowQueue :=
  { q with
    running_workflows := setDiscard q.running_workflows execution.execution_id,
    completed_workflows :=
      mapInsert q.completed_workflows execution.execution_id execution }

/-- `WorkflowQueue.get_queue_size` (lines 58–60). -/
def WorkflowQueue.get_queue_size (q : WorkflowQueue) : Nat := q.queue.length

/-- `WorkflowQueue.get_running_count` (lines 62–64). -/
def WorkflowQueue.get_running_count (q : WorkflowQueue) : Nat :=
  q.running_workflows.length

/-! ### `WorkflowManager` state and the sequential operations
(workflow_manager.py lines 67–456) -/

/-- State of `WorkflowManager` relevant to the sequential operations: the
queue, the per-kind metrics ledger (`defaultdict(list)` as a total function on
the four-element enumeration) and the trigger-config map. -/
structure Manager where
  queue : WorkflowQueue
  metrics_store : WorkflowType → List WorkflowExecution
  trigger_configs : List (String × WorkflowTriggerConfig)

/-- `WorkflowManager.__init__` (lines 72–78). -/
def Manager.init : Manager :=
  { queue := WorkflowQueue.init 1000, metrics_store := fun _ => [],
    trigger_configs := [] }

/-- Comparison passed to Python `sorted(key=lambda e: e.started_at,
reverse=True)`: descending by submission time; `mergeSort` with this relation
is a stable descending sort, exactly CPython `sorted(..., reverse=True)`. -/
def descLE (a b : WorkflowExecution) : Bool :=
  b.started_at ≤ a.started_at

/-- Pruning step of `WorkflowManager._update_metrics` (lines 447–455): when the
per-kind history exceeds 1000 entries, keep the 1000 most recent by
`started_at` via a stable descending sort and truncation. -/
def pruneHistory (l : List WorkflowExecution) : List WorkflowExecution :=
  if l.length > 1000 then (l.mergeSort descLE).take 1000 else l

/-- `WorkflowManager._update_metrics` (lines 443–455): append the execution to
its kind's history, then prune. -/
def Manager.update_metrics (m : Manager) (execution : WorkflowExecution) :
    Manager :=
  { m with metrics_store := fun k =>
      if k = execution.workflow_type then
        pruneHistory (m.metrics_store execution.workflow_type ++ [execution])
      else m.metrics_store k }

/-- Python truthiness of `e.duration_seconds`: `None` and `0.0` are falsy. -/
def truthyDuration : Option ℚ → Bool
  | none => false
  | some d => d ≠ 0

/-- `WorkflowManager.get_workflow_metrics` (lines 255–294), a pure function of
the retained history.  Note the filter `if e.duration_seconds and e.status ==
COMPLETED`: Python truthiness, so a completed record with duration `0.0` is
excluded from the average. -/
def Manager.get_workflow_metrics (m : Manager) (workflow_type : WorkflowType) :
    WorkflowMetrics :=
  let executions := m.metrics_store workflow_type
  if executions.isEmpty then
    { workflow_type := workflow_type, total_executions := 0,
      successful_executions := 0, failed_executions := 0,
      average_duration_seconds := 0, success_rate := 0, last_execution := none }
  else
    let total := executions.length
    let successful :=
      (executions.filter (fun e => e.status = WorkflowStatus.completed)).length
    let failed :=
      (executions.filter (fun e => e.status = WorkflowStatus.failed)).length
    let durations := (executions.filter (fun e =>
      truthyDuration e.duration_seconds ∧
        e.status = WorkflowStatus.completed)).filterMap (fun e =>
          e.duration_seconds)
    let avg_duration : ℚ :=
      if durations.isEmpty then 0
      else (durations.foldl (· + ·) (0 : ℚ)) / durations.length
    let last_execution :=
      (executions.map (fun e => e.started_at)).max?
    { workflow_type := workflow_type, total_executions := total,
      successful_executions := successful, failed_executions := failed,
      average_duration_seconds := avg_duration,
      success_rate := if total > 0 then (successful : ℚ) / total * 100 else 0,
      last_execution := last_execution }

/-- `WorkflowManager._should_trigger_workflow` (lines 418–441): rate-limit
check over the ledger, then the unimplemented condition stub `return False`. -/
def Manager.should_trigger_workflow (m : Manager)
    (trigger_config : WorkflowTriggerConfig) (current_time : ℚ) : Bool :=
  let recent_executions :=
    (m.metrics_store trigger_config.workflow_type).filter
      (fun e => e.started_at > current_time - 3600)
  if recent_executions.length ≥ trigger_config.max_executions_per_hour then
    false
  else
    false

/-- `WorkflowManager.cleanup_old_executions` (lines 326–345): the metrics store
keeps entries with `started_at > cutoff` (strictly after), while the completed
map deletes entries with `started_at < cutoff` (so it keeps `started_at =
cutoff`). -/
def Manager.cleanup_old_executions (m : Manager) (retention_days : ℚ)
    (now : ℚ) : Manager :=
  let cutoff_date := now - retention_days * 86400
  let store' : WorkflowType → List WorkflowExecution := fun k =>
    (m.metrics_store k).filter (fun e => e.started_at > cutoff_date)
  let completed' := m.queue.completed_workflows.filter
    (fun p => ¬ p.2.started_at < cutoff_date)
  { m with
    metrics_store := store',
    queue := { m.queue with completed_workflows := completed' } }

/-- Outcome of the synchronous admission prefix of
`WorkflowManager.execute_workflow`: either the immediately returned
queue-full failure record (no polling wait is entered), or admission into the
queue after which the polling wait begins. -/
inductive SubmitAdmission where
  | rejected (record : WorkflowExecution)
  | admitted (record : WorkflowExecution)

/-- Lines 120–137 of `WorkflowManager.execute_workflow`: build the `Pending`
record, try `add_workflow`; on rejection mark it `Failed` with the queue-full
message and return at once (the polling loop of lines 143–161 is never
entered and `_update_metrics` is not called). -/
def Manager.submit_admission (m : Manager) (execution_id : String)
    (workflow_type : WorkflowType) (data : Dict)
    (correlation_id : Option String) (now : ℚ) : SubmitAdmission × Manager :=
  let execution : WorkflowExecution :=
    { execution_id := execution_id, workflow_type := workflow_type,
      status := WorkflowStatus.pending, input_data := data,
      started_at := now, correlation_id := correlation_id }
  match m.queue.add_workflow execution with
  | (false, q') =>
      (SubmitAdmission.rejected
        { execution with
          status := WorkflowStatus.failed,
          error_message := some "Workflow queue is full",
          completed_at := some now },
       { m with queue := q' })
  | (true, q') => (SubmitAdmission.admitted execution, { m with queue := q' })

/-! ### `WorkflowManager.execute_batch_workflows` (lines 170–253)

Calling the async method `execute_workflow` produces a coroutine object that
runs only when awaited, and a CPython coroutine can be awaited at most once: a
second `await` raises `RuntimeError("cannot reuse already awaited coroutine")`.
A task in this embedding is the coroutine's argument pair together with its
already-awaited flag; awaiting is sampling `submitRes`, the oracle describing
what `execute_workflow` returns for a given kind and payload (it abstracts the
queue, the drain loop and the gateway).  An uncaught exception escaping the
method is `Except.error`. -/

/-- Payload preparation for batch member `i` (lines 184–193): copy the shared
data, overlay the kind's individual data, then stamp the batch metadata. -/
def batchData (req : BatchWorkflowRequest) (batch_id : String) (i : Nat)
    (k : WorkflowType) : Dict :=
  let d0 := req.shared_data
  let d1 := match req.individual_data.lookup k with
    | some u => dictUpdate d0 u
    | none => d0
  dictUpdate d1
    [("batchId", Value.str batch_id),
     ("batchIndex", Value.num i),
     ("batchTotal", Value.num req.workflows.length)]

/-- A created coroutine: workflow kind, prepared payload, and whether it has
already been awaited. -/
structure BatchTask where
  kind : WorkflowType
  data : Dict
  awaited : Bool

/-- Creation loop (lines 181–211).  In fail-fast mode the freshly appended
coroutine is awaited at once (line 209, `await execution_tasks[-1]`, guarded by
`fail_fast and execution_tasks`, the latter always true right after the
append), and creation stops when that result is `Failed` (not on `TimedOut`).
Without fail-fast no coroutine is awaited here. -/
def createTasks (submitRes : WorkflowType → Dict → WorkflowExecution)
    (req : BatchWorkflowRequest) (batch_id : String) :
    List WorkflowType → Nat → List BatchTask
  | [], _ => []
  | k :: rest, i =>
    let data := batchData req batch_id i k
    if req.fail_fast then
      let previous_result := submitRes k data
      if previous_result.status = WorkflowStatus.failed then
        [{ kind := k, data := data, awaited := true }]
      else
        { kind := k, data := data, awaited := true } ::
          createTasks submitRes req batch_id rest (i + 1)
    else
      { kind := k, data := data, awaited := false } ::
        createTasks submitRes req batch_id rest (i + 1)

/-- Fail-fast execution loop (lines 216–221): `await task` for each created
coroutine in order, stopping after a `Failed` result.  Awaiting a coroutine the
creation loop already consumed raises. -/
def awaitTasks (submitRes : WorkflowType → Dict → WorkflowExecution) :
    List BatchTask → Except String (List WorkflowExecution)
  | [] => Except.ok []
  | t :: rest =>
    if t.awaited then
      Except.error "cannot reuse already awaited coroutine"
    else
      let result := submitRes t.kind t.data
      if result.status = WorkflowStatus.failed then
        Except.ok [result]
      else
        match awaitTasks submitRes rest with
        | Except.ok rs => Except.ok (result :: rs)
        | Except.error e => Except.error e

/-- `WorkflowManager.execute_batch_workflows` (lines 170–253).
`fresh_batch_id` models the generated `batch_<uuid>` used when the request has
no correlation id; `start_time`/`end_time` are the clock readings at lines 178
and 242.  `delay_between_workflows` only inserts sleeps (line 198) and has no
effect on the returned value. -/
def execute_batch_workflows (req : BatchWorkflowRequest)
    (submitRes : WorkflowType → Dict → WorkflowExecution)
    (fresh_batch_id : String) (start_time end_time : ℚ) :
    Except String BatchWorkflowResult :=
  let batch_id := req.correlation_id.getD fresh_batch_id
  let execution_tasks := createTasks submitRes req batch_id req.workflows 0
  let resultsE : Except String (List WorkflowExecution) :=
    if req.fail_fast then
      awaitTasks submitRes execution_tasks
    else
      Except.ok (execution_tasks.map (fun t => submitRes t.kind t.data))
  match resultsE with
  | Except.error e => Except.error e
  | Except.ok results =>
    let successful_count :=
      (results.filter (fun r => r.status = WorkflowStatus.completed)).length
    let failed_count :=
      (results.filter (fun r => r.status = WorkflowStatus.failed ∨
        r.status = WorkflowStatus.timeout)).length
    Except.ok
      { batch_id := batch_id,
        total_workflows := req.workflows.length,
        successful_workflows := successful_count,
        failed_workflows := failed_count,
        execution_results := results,
        started_at := start_time,
        completed_at := some end_time,
        total_duration_seconds := some (end_time - start_time) }

/-! ### Operational model with shared record objects (for the record
life-cycle)

The Python queue, completed map and metrics ledger all hold references to the
same mutable `WorkflowExecution` objects.  `Sys` makes the object store
explicit: `heap` maps execution ids to record contents, and the containers
hold ids.  Each action is one uninterrupted segment of Python code between
`await` points, so a trace of actions is a legal interleaving of the
`execute_workflow` callers and the `_process_workflow_queue` drain task. -/

structure Sys where
  heap : List (String × WorkflowExecution)
  queueIds : List String
  runningIds : List String
  completedIds : List String
  metricsIds : WorkflowType → List String
  pending_submits : List (String × ℚ × ℚ)
  now : ℚ

/-- Read a record object from the store. -/
def heapGet (h : List (String × WorkflowExecution)) (id : String) :
    Option WorkflowExecution :=
  (h.find? (fun p => p.1 = id)).map (fun p => p.2)

/-- Mutate a record object in place. -/
def heapSet (h : List (String × WorkflowExecution)) (id : String)
    (f : WorkflowExecution → WorkflowExecution) :
    List (String × WorkflowExecution) :=
  h.map (fun p => if p.1 = id then (p.1, f p.2) else p)

/-- Ledger pruning on ids (`_update_metrics` lines 447–455), keyed through the
object store. -/
def pruneIds (h : List (String × WorkflowExecution)) (ids : List String) :
    List String :=
  if ids.length > 1000 then
    (ids.mergeSort (fun a b =>
      (((heapGet h b).map (fun e => e.started_at)).getD 0) ≤
        (((heapGet h a).map (fun e => e.started_at)).getD 0))).take 1000
  else ids

/-- Append an id to the per-kind ledger, then prune (`_update_metrics`). -/
def metricsAppend (s : Sys) (id : String) (k : WorkflowType) :
    WorkflowType → List String := fun k' =>
  if k' = k then pruneIds s.heap (s.metricsIds k ++ [id]) else s.metricsIds k'

/-- Atomic code segments of the orchestrator. -/
inductive Act where
  /-- Time passes while every task is suspended (`asyncio.sleep`). -/
  | tick (δ : ℚ)
  /-- `execute_workflow` lines 120–141 up to the first poll: build the
  `Pending` record, enqueue it (non-full queue), start the polling wait. -/
  | submit (id : String) (k : WorkflowType) (data : Dict) (timeout : ℚ)
  /-- Drain loop lines 352–359: `get_next_workflow` succeeds and the id is
  marked running (the record's `status` field is not touched). -/
  | drainDequeue
  /-- Drain loop lines 363–375 and 385–386: the gateway call returns `result`
  and its fields are copied onto the record object, which is then marked
  completed. -/
  | gatewayReturn (id : String) (result : WorkflowExecution)
  /-- Drain loop lines 377–386: the gateway call raises and the record is
  failed with the exception text. -/
  | gatewayRaise (id : String) (msg : String)
  /-- `execute_workflow` lines 143 and 163–168: the poll deadline has passed,
  so the caller stamps `TIMEOUT` onto the record object, merges it into the
  ledger and returns. -/
  | submitTimeout (id : String)
  /-- `execute_workflow` lines 145–148: a poll finds the id in the completed
  map before the deadline; the caller merges the record into the ledger and
  returns. -/
  | submitFinish (id : String)

/-- One action of the system; `none` when the action's guard does not hold in
the state (the corresponding code segment is not enabled). -/
def stepSys (a : Act) (s : Sys) : Option Sys :=
  match a with
  | Act.tick δ =>
    if δ > 0 then some { s with now := s.now + δ } else none
  | Act.submit id k data timeout =>
    if heapGet s.heap id = none ∧ s.queueIds.length < 1000 then
      let record : WorkflowExecution :=
        { execution_id := id, workflow_type := k,
          status := WorkflowStatus.pending, input_data := data,
          started_at := s.now }
      some { s with
             heap := s.heap ++ [(id, record)],
             queueIds := s.queueIds ++ [id],
             pending_submits := s.pending_submits ++ [(id, s.now, timeout)] }
    else none
  | Act.drainDequeue =>
    if s.runningIds.length < 5 then
      match s.queueIds with
      | [] => none
      | id :: rest =>
        some { s with queueIds := rest, runningIds := setAdd s.runningIds id }
    else none
  | Act.gatewayReturn id result =>
    if id ∈ s.runningIds then
      some { s with
             heap := heapSet s.heap id (fun w =>
               { w with
                 status := result.status,
                 output_data := result.output_data,
                 error_message := result.error_message,
                 completed_at := result.completed_at,
                 duration_seconds := result.duration_seconds,
                 n8n_execution_id := result.n8n_execution_id }),
             runningIds := setDiscard s.runningIds id,
             completedIds := setAdd s.completedIds id }
    else none
  | Act.gatewayRaise id msg =>
    if id ∈ s.runningIds then
      some { s with
             heap := heapSet s.heap id (fun w =>
               { w with
                 status := WorkflowStatus.failed,
                 error_message := some ("Execution failed: " ++ msg),
                 completed_at := some s.now,
                 duration_seconds := some (s.now - w.started_at) }),
             runningIds := setDiscard s.runningIds id,
             completedIds := setAdd s.completedIds id }
    else none
  | Act.submitTimeout id =>
    match s.pending_submits.find? (fun p => p.1 = id) with
    | some (_, start, timeout) =>
      if s.now - start ≥ timeout then
        match heapGet s.heap id with
        | some w =>
          some { s with
                 heap := heapSet s.heap id (fun w' =>
                   { w' with
                     status := WorkflowStatus.timeout,
                     error_message := some ("Workflow timed out after " ++
                       toString timeout ++ " seconds"),
                     completed_at := some s.now }),
                 metricsIds := metricsAppend s id w.workflow_type,
                 pending_submits :=
                   s.pending_submits.filter (fun p => p.1 ≠ id) }
        | none => none
      else none
    | none => none
  | Act.submitFinish id =>
    match s.pending_submits.find? (fun p => p.1 = id) with
    | some (_, start, timeout) =>
      if s.now - start < timeout ∧ id ∈ s.completedIds then
        match heapGet s.heap id with
        | some w =>
          some { s with
                 metricsIds := metricsAppend s id w.workflow_type,
                 pending_submits :=
                   s.pending_submits.filter (fun p => p.1 ≠ id) }
        | none => none
      else none
    | none => none

/-- Run a list of actions; fails when any action is not enabled. -/
def runSys (acts : List Act) (s : Sys) : Option Sys :=
  acts.foldlM (fun s' a => stepSys a s') s

/-- The empty orchestrator just after `start()`. -/
def initSys : Sys :=
  { heap := [], queueIds := [], runningIds := [], completedIds := [],
    metricsIds := fun _ => [], pending_submits := [], now := 0 }

/-- Status of a record object after running a trace. -/
def statusAt (os : Option Sys) (id : String) : Option WorkflowStatus :=
  os.bind (fun s => (heapGet s.heap id).map (fun e => e.status))

/-! ### Iterated ledger insertion (for the pruning bound) -/

/-- One `_update_metrics` step on a bare per-kind history: append, then
prune. -/
def stepHist (h : List WorkflowExecution) (e : WorkflowExecution) :
    List WorkflowExecution :=
  pruneHistory (h ++ [e])

/-- A sequence of `_update_metrics` insertions into one kind's history,
starting from the empty history. -/
def foldHist (rs : List WorkflowExecution) : List WorkflowExecution :=
  rs.foldl stepHist []

/-- A sequence of `_update_metrics` calls on the manager. -/
def foldMetrics (m : Manager) (rs : List WorkflowExecution) : Manager :=
  rs.foldl Manager.update_metrics m

/-- Strictly increasing submission times. -/
def TimeAsc (l : List WorkflowExecution) : Prop :=
  l.Pairwise (fun a b => a.started_at < b.started_at)

/-- Test fixture: the i-th of a family of terminal records with strictly
increasing submission times. -/
def ascExec (i : Nat) : WorkflowExecution :=
  { execution_id := toString i,
    workflow_type := WorkflowType.customerAnalysis,
    status := WorkflowStatus.completed, input_data := [],
    started_at := (i : ℚ), duration_seconds := some 1 }

/-- Test fixture: 1005 terminal records with submission times 0, 1, …, 1004. -/
def rs1005 : List WorkflowExecution := (List.range 1005).map ascExec

/-- Test fixture: a record with the given id, kind, status, submission time
and optional duration. -/
def mkExec (id : String) (k : WorkflowType) (st : WorkflowStatus) (t : ℚ)
    (dur : Option ℚ := none) : WorkflowExecution :=
  { execution_id := id, workflow_type := k, status := st, input_data := [],
    started_at := t, duration_seconds := dur }

/-- Test fixture: a metrics store holding `l` under `customerAnalysis` and
nothing elsewhere. -/
def storeOf (l : List WorkflowExecution) :
    WorkflowType → List WorkflowExecution := fun k =>
  if k = WorkflowType.customerAnalysis then l else []

/-- Test fixture: a manager whose ledger is `storeOf l`. -/
def mgrOf (l : List WorkflowExecution) : Manager :=
  { queue := WorkflowQueue.init 1000, metrics_store := storeOf l,
    trigger_configs := [] }

/-- Modelled from the claim's wording for the counterexample: the average
duration over `Completed` records with a known (present) duration, `0` when
there are none. -/
def claimAvgDuration (l : List WorkflowExecution) : ℚ :=
  let ds := (l.filter (fun e => e.status = WorkflowStatus.completed ∧
    e.duration_seconds ≠ none)).filterMap (fun e => e.duration_seconds)
  if ds.isEmpty then 0 else (ds.foldl (· + ·) (0 : ℚ)) / ds.length

/-- Average duration as the code computes it (Python truthiness): over
`Completed` records with a known nonzero duration. -/
def amendedAvgDuration (l : List WorkflowExecution) : ℚ :=
  let ds := (l.filter (fun e => truthyDuration e.duration_seconds ∧
    e.status = WorkflowStatus.completed)).filterMap (fun e =>
      e.duration_seconds)
  if ds.isEmpty then 0 else (ds.foldl (· + ·) (0 : ℚ)) / ds.length

/-- Test fixture for the cleanup boundary: one record submitted exactly at the
cutoff instant, present in both the ledger and the completed map. -/
def mgrC9 : Manager :=
  { queue := { WorkflowQueue.init 1000 with
      completed_workflows := [("e0", mkExec "e0"
        WorkflowType.customerAnalysis WorkflowStatus.completed 0)] },
    metrics_store := storeOf [mkExec "e0" WorkflowType.customerAnalysis
      WorkflowStatus.completed 0],
    trigger_configs := [] }

/-- Test fixture for C1: the gateway outcome oracle where `customerAnalysis`
(kind A) fails and every other kind completes. -/
def submitResAFails : WorkflowType → Dict → WorkflowExecution := fun k _ =>
  if k = WorkflowType.customerAnalysis then
    mkExec "a" k WorkflowStatus.failed 0
  else
    mkExec "o" k WorkflowStatus.completed 0

/-- Trace prefix: five submissions saturate the five concurrency slots, a
sixth (`w1`, timeout override 1s) is admitted and stays queued; after 2
seconds its submitter's poll deadline passes and it stamps `TIMEOUT` onto the
shared record object. -/
def actsC3pre : List Act :=
  [Act.submit "r1" WorkflowType.customerAnalysis [] 300,
   Act.submit "r2" WorkflowType.customerAnalysis [] 300,
   Act.submit "r3" WorkflowType.customerAnalysis [] 300,
   Act.submit "r4" WorkflowType.customerAnalysis [] 300,
   Act.submit "r5" WorkflowType.customerAnalysis [] 300,
   Act.drainDequeue, Act.drainDequeue, Act.drainDequeue,
   Act.drainDequeue, Act.drainDequeue,
   Act.submit "w1" WorkflowType.customerAnalysis [] 1,
   Act.tick 2,
   Act.submitTimeout "w1"]

/-- Trace suffix: one gateway call returns, freeing a slot; the drain loop
dequeues `w1` — already `TIMEOUT` — runs it, and copies the gateway's
`COMPLETED` outcome over the terminal record. -/
def actsC3tail : List Act :=
  [Act.gatewayReturn "r1"
     (mkExec "r1" WorkflowType.customerAnalysis WorkflowStatus.completed 0),
   Act.drainDequeue,
   Act.gatewayReturn "w1"
     (mkExec "w1" WorkflowType.customerAnalysis WorkflowStatus.completed 0)]

/-! ### Reachable queue states under the drain-loop discipline

The drain loop (lines 348–390) only calls `mark_running` on a record that
`get_next_workflow` just handed out, and otherwise touches the queue through
`add_workflow` and `mark_completed`. -/

/-- Queue states reachable from a fresh queue by admissions, the drain loop's
dequeue-then-mark-running step, and completions. -/
inductive QueueReach : WorkflowQueue → Prop where
  | init (max_size : Nat) : QueueReach (WorkflowQueue.init max_size)
  | enqueue (q : WorkflowQueue) (e : WorkflowExecution) (b : Bool)
      (q' : WorkflowQueue) : QueueReach q → q.add_workflow e = (b, q') →
      QueueReach q'
  | dequeue_run (q : WorkflowQueue) (w : WorkflowExecution)
      (q' : WorkflowQueue) : QueueReach q →
      q.get_next_workflow = some (w, q') →
      QueueReach (q'.mark_running w.execution_id)
  | complete (q : WorkflowQueue) (e : WorkflowExecution) : QueueReach q →
      QueueReach (q.mark_completed e)

lemma setAdd_length_le (s : List String) (x : String) :
    (setAdd s x).length ≤ s.length + 1 := by
  unfold setAdd
  split
  · exact Nat.le_succ _
  · simp

lemma setDiscard_length_le (s : List String) (x : String) :
    (setDiscard s x).length ≤ s.length :=
  List.length_filter_le _ _

lemma get_next_workflow_eq_some {q : WorkflowQueue} {w : WorkflowExecution}
    {q' : WorkflowQueue} (h : q.get_next_workflow = some (w, q')) :
    q.running_workflows.length < q.max_concurrent ∧
      q'.running_workflows = q.running_workflows ∧
      q'.max_concurrent = q.max_concurrent := by
  unfold WorkflowQueue.get_next_workflow at h
  split at h
  · exact absurd h (by simp)
  · rename_i hlt
    match hq : q.queue with
    | [] => rw [hq] at h; exact absurd h (by simp)
    | w0 :: rest =>
      rw [hq] at h
      simp only [Option.some.injEq, Prod.mk.injEq] at h
      obtain ⟨h1, h2⟩ := h
      subst h2
      exact ⟨Nat.lt_of_not_le hlt, rfl, rfl⟩

/-- C4: `get_next_workflow` hands out the FIFO head only below the concurrency
cap (and never mutates on refusal), and every queue state reachable under the
drain-loop discipline keeps the running count at or below `max_concurrent`. -/
theorem C4_dequeue_gate_and_concurrency_bound :
    (∀ q : WorkflowQueue, q.get_running_count ≥ q.max_concurrent →
      q.get_next_workflow = none) ∧
    (∀ q : WorkflowQueue, q.queue = [] → q.get_next_workflow = none) ∧
    (∀ (q : WorkflowQueue) (w : WorkflowExecution)
      (rest : List WorkflowExecution),
      q.get_running_count < q.max_concurrent → q.queue = w :: rest →
      q.get_next_workflow = some (w, { q with queue := rest })) ∧
    (∀ q : WorkflowQueue, QueueReach q →
      q.get_running_count ≤ q.max_concurrent) := by
  refine ⟨?_, ?_, ?_, ?_⟩
  · intro q h
    have h' : q.running_workflows.length ≥ q.max_concurrent := h
    unfold WorkflowQueue.get_next_workflow
    rw [if_pos h']
  · intro q h
    unfold WorkflowQueue.get_next_workflow
    split
    · rfl
    · rw [h]
  · intro q w rest hlt heq
    have hlt' : ¬ q.running_workflows.length ≥ q.max_concurrent :=
      Nat.not_le.mpr hlt
    unfold WorkflowQueue.get_next_workflow
    rw [if_neg hlt', heq]
  · intro q h
    induction h with
    | init n => simp [WorkflowQueue.init, WorkflowQueue.get_running_count]
    | enqueue q e b q' hr heq ih =>
      unfold WorkflowQueue.add_workflow at heq
      split at heq <;>
        (injection heq with h1 h2; subst h2; simpa using ih)
    | dequeue_run q w q' hr heq ih =>
      obtain ⟨hlt, hrun, hmax⟩ := get_next_workflow_eq_some heq
      unfold WorkflowQueue.mark_running WorkflowQueue.get_running_count
      simp only [hrun, hmax]
      calc (setAdd q.running_workflows w.execution_id).length
          ≤ q.running_workflows.length + 1 := setAdd_length_le _ _
        _ ≤ q.max_concurrent := hlt
    | complete q e hr ih =>
      unfold WorkflowQueue.mark_completed WorkflowQueue.get_running_count
      exact le_trans (setDiscard_length_le _ _) ih

/-- Witness for C4 at concrete states: a queue with five running ids refuses
to dequeue; an empty queue refuses; a one-element queue below the cap hands
out its head; the fresh queue satisfies the bound. -/
theorem C4_dequeue_gate_and_concurrency_bound_witness :
    ({ queue := [], maxlen := 1000,
       running_workflows := ["a", "b", "c", "d", "e"],
       completed_workflows := [], max_concurrent := 5 :
         WorkflowQueue }).get_next_workflow = none ∧
    (WorkflowQueue.init 1000).get_next_workflow = none ∧
    ({ queue := [{ execution_id := "x",
                   workflow_type := WorkflowType.customerAnalysis,
                   status := WorkflowStatus.pending, input_data := [],
                   started_at := 0 }], maxlen := 1000,
       running_workflows := [], completed_workflows := [],
       max_concurrent := 5 : WorkflowQueue }).get_next_workflow =
      some ({ execution_id := "x",
              workflow_type := WorkflowType.customerAnalysis,
              status := WorkflowStatus.pending, input_data := [],
              started_at := 0 },
            { queue := [], maxlen := 1000, running_workflows := [],
              completed_workflows := [], max_concurrent := 5 }) ∧
    (WorkflowQueue.init 1000).get_running_count ≤
      (WorkflowQueue.init 1000).max_concurrent := by
  refine ⟨?_, ?_, ?_, ?_⟩
  · exact C4_dequeue_gate_and_concurrency_bound.1 _ (by decide)
  · exact C4_dequeue_gate_and_concurrency_bound.2.1 _ (by decide)
  · exact C4_dequeue_gate_and_concurrency_bound.2.2.1 _ _ _ (by decide) rfl
  · exact C4_dequeue_gate_and_concurrency_bound.2.2.2 _
      (QueueReach.init 1000)

/-- C5: a full queue rejects admission without mutation; the rejected
submission comes back at once as a `Failed` record with the queue-full message
and an untouched manager state; below capacity the record is appended, so the
queue length never exceeds `maxlen`. -/
theorem C5_queue_full_rejection :
    (∀ (q : WorkflowQueue) (e : WorkflowExecution),
      q.queue.length ≥ q.maxlen → q.add_workflow e = (false, q)) ∧
    (∀ (m : Manager) (id : String) (k : WorkflowType) (d : Dict)
      (c : Option String) (now : ℚ),
      m.queue.queue.length ≥ m.queue.maxlen →
      m.submit_admission id k d c now =
        (SubmitAdmission.rejected
          { execution_id := id, workflow_type := k,
            status := WorkflowStatus.failed, input_data := d,
            error_message := some "Workflow queue is full",
            started_at := now, completed_at := some now,
            correlation_id := c }, m)) ∧
    (∀ (q : WorkflowQueue) (e : WorkflowExecution),
      q.queue.length < q.maxlen →
      q.add_workflow e = (true, { q with queue := q.queue ++ [e] })) ∧
    (∀ (q : WorkflowQueue) (e : WorkflowExecution),
      q.queue.length ≤ q.maxlen →
      ((q.add_workflow e).2).queue.length ≤ q.maxlen) := by
  refine ⟨?_, ?_, ?_, ?_⟩
  · intro q e h
    unfold WorkflowQueue.add_workflow
    rw [if_pos h]
  · intro m id k d c now h
    have hq : m.queue.add_workflow
        { execution_id := id, workflow_type := k,
          status := WorkflowStatus.pending, input_data := d,
          started_at := now, correlation_id := c } = (false, m.queue) := by
      unfold WorkflowQueue.add_workflow
      rw [if_pos h]
    simp only [Manager.submit_admission, hq]
  · intro q e h
    unfold WorkflowQueue.add_workflow
    rw [if_neg (Nat.not_le.mpr h)]
  · intro q e h
    unfold WorkflowQueue.add_workflow
    rcases Nat.lt_or_ge q.queue.length q.maxlen with hlt | hge
    · rw [if_neg (Nat.not_le.mpr hlt)]
      simpa using hlt
    · rw [if_pos hge]
      exact h

/-- Helper: `add_workflow` on a full queue rejects without mutation. -/
lemma add_workflow_of_full (q : WorkflowQueue) (e : WorkflowExecution)
    (h : q.queue.length ≥ q.maxlen) : q.add_workflow e = (false, q) := by
  unfold WorkflowQueue.add_workflow
  rw [if_pos h]

/-- Helper: on a full queue, `execute_workflow`'s admission prefix returns the
synthesized `Failed` record at once and leaves the manager state untouched. -/
lemma submit_admission_of_full (m : Manager) (id : String) (k : WorkflowType)
    (d : Dict) (c : Option String) (now : ℚ)
    (h : m.queue.queue.length ≥ m.queue.maxlen) :
    m.submit_admission id k d c now =
      (SubmitAdmission.rejected
        { execution_id := id, workflow_type := k,
          status := WorkflowStatus.failed, input_data := d,
          error_message := some "Workflow queue is full",
          started_at := now, completed_at := some now,
          correlation_id := c }, m) := by
  have hq : m.queue.add_workflow
      { execution_id := id, workflow_type := k,
        status := WorkflowStatus.pending, input_data := d,
        started_at := now, correlation_id := c } = (false, m.queue) :=
    add_workflow_of_full _ _ h
  simp only [Manager.submit_admission, hq]

/-- Witness for C5: with a one-slot queue already holding a record, admission
is rejected and the manager state is untouched; below capacity the record is
appended. -/
theorem C5_queue_full_rejection_witness :
    (({ queue := { queue := [{ execution_id := "x",
                               workflow_type := WorkflowType.customerAnalysis,
                               status := WorkflowStatus.pending,
                               input_data := [], started_at := 0 }],
                   maxlen := 1, running_workflows := [],
                   completed_workflows := [], max_concurrent := 5 },
        metrics_store := fun _ => [], trigger_configs := [] :
          Manager }).submit_admission "y"
        WorkflowType.customerAnalysis [] none 7 =
      (SubmitAdmission.rejected
        { execution_id := "y",
          workflow_type := WorkflowType.customerAnalysis,
          status := WorkflowStatus.failed, input_data := [],
          error_message := some "Workflow queue is full",
          started_at := 7, completed_at := some 7,
          correlation_id := none },
       { queue := { queue := [{ execution_id := "x",
                                workflow_type := WorkflowType.customerAnalysis,
                                status := WorkflowStatus.pending,
                                input_data := [], started_at := 0 }],
                    maxlen := 1, running_workflows := [],
                    completed_workflows := [], max_concurrent := 5 },
         metrics_store := fun _ => [], trigger_configs := [] })) ∧
    ((WorkflowQueue.init 2).add_workflow
        { execution_id := "x", workflow_type := WorkflowType.customerAnalysis,
          status := WorkflowStatus.pending, input_data := [],
          started_at := 0 }).2.queue.length ≤ (WorkflowQueue.init 2).maxlen :=
  ⟨C5_queue_full_rejection.2.1 _ _ _ _ _ _ (by decide),
   C5_queue_full_rejection.2.2.2 _ _ (by decide)⟩

/-! ### Concrete fixtures used by witnesses and counterexamples

Rational arithmetic is `@[irreducible]` in the library, which blocks `decide`
on concrete states; inside this section the arithmetic is made semireducible
so that concrete evaluations reduce (the kernel certification is unaffected).
-/

section RatEval

attribute [local semireducible] Rat.add Rat.sub Rat.mul Rat.inv



/-! ### C8: trigger rate limiting and the never-fire baseline -/

/-- C8: `_should_trigger_workflow` returns `false` whenever the count of
ledger entries for the config's kind submitted within the last hour reaches
`max_executions_per_hour`, and — the condition evaluator being the
unimplemented `return False` stub — it returns `false` in every case. -/
theorem C8_trigger_rate_limit_never_fires :
    (∀ (m : Manager) (cfg : WorkflowTriggerConfig) (now : ℚ),
      ((m.metrics_store cfg.workflow_type).filter
        (fun e => e.started_at > now - 3600)).length ≥
          cfg.max_executions_per_hour →
      m.should_trigger_workflow cfg now = false) ∧
    (∀ (m : Manager) (cfg : WorkflowTriggerConfig) (now : ℚ),
      m.should_trigger_workflow cfg now = false) := by
  have hall : ∀ (m : Manager) (cfg : WorkflowTriggerConfig) (now : ℚ),
      m.should_trigger_workflow cfg now = false := by
    intro m cfg now
    simp [Manager.should_trigger_workflow]
  exact ⟨fun m cfg now _ => hall m cfg now, hall⟩

/-- Witness for C8: a trigger capped at 2 executions per hour with 3 ledger
entries inside the last hour does not fire. -/
theorem C8_trigger_rate_limit_never_fires_witness :
    ((mgrOf [mkExec "a" WorkflowType.customerAnalysis
        WorkflowStatus.completed 1800,
      mkExec "b" WorkflowType.customerAnalysis
        WorkflowStatus.completed 1900,
      mkExec "c" WorkflowType.customerAnalysis
        WorkflowStatus.completed 2000]).metrics_store
        WorkflowType.customerAnalysis).length = 3 ∧
    (mgrOf [mkExec "a" WorkflowType.customerAnalysis
        WorkflowStatus.completed 1800,
      mkExec "b" WorkflowType.customerAnalysis
        WorkflowStatus.completed 1900,
      mkExec "c" WorkflowType.customerAnalysis
        WorkflowStatus.completed 2000]).should_trigger_workflow
      { trigger_name := "t", workflow_type := WorkflowType.customerAnalysis,
        trigger_conditions := [], max_executions_per_hour := 2 } 3000 =
      false :=
  ⟨by decide,
   C8_trigger_rate_limit_never_fires.1 _
     { trigger_name := "t", workflow_type := WorkflowType.customerAnalysis,
       trigger_conditions := [], max_executions_per_hour := 2 } 3000
     (by decide)⟩

/-! ### C7: metrics aggregation -/



/-- Counterexample for C7: a history of two `Completed` records with known
durations 0.0 and 2.0.  The claim's average (over completed records with a
known duration) is 1.0, but the code's truthiness test drops the 0.0 record
and reports 2.0. -/
theorem C7_metrics_aggregation_counterexample :
    ((mgrOf [mkExec "a" WorkflowType.customerAnalysis
        WorkflowStatus.completed 1 (some 0),
      mkExec "b" WorkflowType.customerAnalysis
        WorkflowStatus.completed 2 (some 2)]).get_workflow_metrics
          WorkflowType.customerAnalysis).average_duration_seconds = 2 ∧
    claimAvgDuration
      ((mgrOf [mkExec "a" WorkflowType.customerAnalysis
          WorkflowStatus.completed 1 (some 0),
        mkExec "b" WorkflowType.customerAnalysis
          WorkflowStatus.completed 2 (some 2)]).metrics_store
          WorkflowType.customerAnalysis) = 1 ∧
    (2 : ℚ) ≠ 1 := by
  refine ⟨by decide, by decide, by decide⟩

/-- C7 amended: the metrics fields are count of retained records, count of
`Completed`, count of `Failed`, the average over `Completed` records with a
known **nonzero** duration, and `succeeded/total*100` (0 for an empty
history); on 2 `Completed` records of durations 1.0 and 2.0 plus 1 `Failed`
record this gives `total=3, succeeded=2, failed=1, avgDuration=3/2,
successRate=200/3`. -/
theorem C7_metrics_aggregation_amended :
    (∀ (m : Manager) (k : WorkflowType),
      (m.get_workflow_metrics k).total_executions =
        (m.metrics_store k).length ∧
      (m.get_workflow_metrics k).successful_executions =
        ((m.metrics_store k).filter
          (fun e => e.status = WorkflowStatus.completed)).length ∧
      (m.get_workflow_metrics k).failed_executions =
        ((m.metrics_store k).filter
          (fun e => e.status = WorkflowStatus.failed)).length ∧
      (m.get_workflow_metrics k).average_duration_seconds =
        amendedAvgDuration (m.metrics_store k) ∧
      (m.get_workflow_metrics k).success_rate =
        (if (m.metrics_store k).length > 0 then
          (((m.metrics_store k).filter
            (fun e => e.status = WorkflowStatus.completed)).length : ℚ) /
              (m.metrics_store k).length * 100
        else 0)) ∧
    (mgrOf [mkExec "a" WorkflowType.customerAnalysis
        WorkflowStatus.completed 1 (some 1),
      mkExec "b" WorkflowType.customerAnalysis
        WorkflowStatus.completed 2 (some 2),
      mkExec "c" WorkflowType.customerAnalysis
        WorkflowStatus.failed 3]).get_workflow_metrics
        WorkflowType.customerAnalysis =
      { workflow_type := WorkflowType.customerAnalysis,
        total_executions := 3, successful_executions := 2,
        failed_executions := 1, average_duration_seconds := 3 / 2,
        success_rate := 200 / 3, last_execution := some 3 } := by
  constructor
  · intro m k
    unfold Manager.get_workflow_metrics amendedAvgDuration
    by_cases hl : (m.metrics_store k).isEmpty
    · have hnil : m.metrics_store k = [] := List.isEmpty_iff.mp hl
      simp [hl, hnil]
    · have hlen : (m.metrics_store k).length > 0 := by
        cases hme : m.metrics_store k with
        | nil => rw [hme] at hl; simp at hl
        | cons a l => simp
      simp only [hl, if_pos hlen]
      refine ⟨rfl, rfl, rfl, rfl, rfl⟩
  · decide

/-! ### C10: an admission-rejected submission leaves the ledger alone -/

/-- C10: when the queue is at capacity, the rejected submission changes no
per-kind ledger history, hence neither the reported metrics nor the trigger
rate-limit count of last-hour entries. -/
theorem C10_rejected_submission_preserves_ledger :
    ∀ (m : Manager) (id : String) (k : WorkflowType) (d : Dict)
      (c : Option String) (now : ℚ),
      m.queue.queue.length ≥ m.queue.maxlen →
      (∀ k', ((m.submit_admission id k d c now).2).metrics_store k' =
        m.metrics_store k') ∧
      (∀ k', ((m.submit_admission id k d c now).2).get_workflow_metrics k' =
        m.get_workflow_metrics k') ∧
      (∀ (cfg : WorkflowTriggerConfig) (t : ℚ),
        ((m.submit_admission id k d c now).2).should_trigger_workflow cfg t =
          m.should_trigger_workflow cfg t) ∧
      (∀ (k' : WorkflowType) (t : ℚ),
        ((((m.submit_admission id k d c now).2).metrics_store k').filter
          (fun e => e.started_at > t - 3600)).length =
        (((m.metrics_store k').filter
          (fun e => e.started_at > t - 3600))).length) := by
  intro m id k d c now h
  rw [submit_admission_of_full m id k d c now h]
  exact ⟨fun _ => rfl, fun _ => rfl, fun _ _ => rfl, fun _ _ => rfl⟩

/-- Witness for C10 at a one-slot full queue. -/
theorem C10_rejected_submission_preserves_ledger_witness :
    ({ queue := { queue := [mkExec "x" WorkflowType.customerAnalysis
                    WorkflowStatus.pending 0],
                  maxlen := 1, running_workflows := [],
                  completed_workflows := [], max_concurrent := 5 },
       metrics_store := storeOf [mkExec "a" WorkflowType.customerAnalysis
         WorkflowStatus.completed 10],
       trigger_configs := [] : Manager }.submit_admission "y"
        WorkflowType.customerAnalysis [] none 7).2.metrics_store
        WorkflowType.customerAnalysis =
      storeOf [mkExec "a" WorkflowType.customerAnalysis
        WorkflowStatus.completed 10] WorkflowType.customerAnalysis :=
  (C10_rejected_submission_preserves_ledger _ "y"
    WorkflowType.customerAnalysis [] none 7 (by decide)).1
    WorkflowType.customerAnalysis

/-! ### C9: retention cleanup boundary -/



/-- Counterexample for C9: with `retentionDays = 7` and `now = 604800` the
cutoff is `0`.  The record submitted exactly at the cutoff is removed from the
ledger (the code keeps only `started_at > cutoff` there) even though the claim
says entries at or after the cutoff stay in both structures — while the
completed map does keep it (the code removes only `started_at < cutoff`
there). -/
theorem C9_cleanup_boundary_counterexample :
    (mgrC9.cleanup_old_executions 7 604800).metrics_store
      WorkflowType.customerAnalysis = [] ∧
    (mgrC9.metrics_store WorkflowType.customerAnalysis).filter
      (fun e => ¬ e.started_at < (604800 : ℚ) - 7 * 86400) =
      [mkExec "e0" WorkflowType.customerAnalysis WorkflowStatus.completed 0] ∧
    ([] : List WorkflowExecution) ≠
      [mkExec "e0" WorkflowType.customerAnalysis WorkflowStatus.completed 0] ∧
    (mgrC9.cleanup_old_executions 7 604800).queue.completed_workflows =
      [("e0", mkExec "e0" WorkflowType.customerAnalysis
        WorkflowStatus.completed 0)] := by
  refine ⟨by decide, by decide, by decide, by decide⟩

/-- C9 amended: `cleanup(retentionDays)` keeps in the per-kind ledger exactly
the entries with submission time strictly after `now - retentionDays` (so an
entry exactly at the cutoff is removed), keeps in the completed map exactly
the entries with submission time at or after the cutoff, and keeps the
survivors unchanged and in order in both structures. -/
theorem C9_cleanup_amended :
    ∀ (m : Manager) (retention_days now : ℚ) (k : WorkflowType),
      (∀ e, e ∈ (m.cleanup_old_executions retention_days now).metrics_store k ↔
        (e ∈ m.metrics_store k ∧
          e.started_at > now - retention_days * 86400)) ∧
      ((m.cleanup_old_executions retention_days now).metrics_store k).Sublist
        (m.metrics_store k) ∧
      (∀ p, p ∈ (m.cleanup_old_executions
          retention_days now).queue.completed_workflows ↔
        (p ∈ m.queue.completed_workflows ∧
          ¬ p.2.started_at < now - retention_days * 86400)) ∧
      ((m.cleanup_old_executions
          retention_days now).queue.completed_workflows).Sublist
        m.queue.completed_workflows := by
  intro m retention_days now k
  refine ⟨?_, ?_, ?_, ?_⟩
  · intro e
    unfold Manager.cleanup_old_executions
    simp
  · exact List.filter_sublist _
  · intro p
    unfold Manager.cleanup_old_executions
    simp
  · exact List.filter_sublist _

/-! ### C1 and C2: the batch fail-fast path re-awaits consumed coroutines -/



/-- C1 evaluated at the claim's scenario: kinds `[A, B, C]` with A failing and
`failFast = true`.  The creation loop awaits A's coroutine (sees `Failed`,
stops creating more), but the execution loop then awaits the same coroutine a
second time, so the method raises instead of returning the one-result
`BatchResult` the claim describes. -/
theorem C1_batch_fail_fast_raises :
    execute_batch_workflows
      { workflows := [WorkflowType.customerAnalysis,
          WorkflowType.followUpSequences, WorkflowType.crmLeadManagement],
        fail_fast := true }
      submitResAFails "batch_0" 0 1 =
      Except.error "cannot reuse already awaited coroutine" := rfl

/-- C2 evaluated at a fail-fast batch of a single succeeding kind: the
`RuntimeError` from re-awaiting the consumed coroutine escapes
`execute_batch_workflows`, so batch submission does throw to the caller on an
initialized orchestrator. -/
theorem C2_submit_batch_raises_exception :
    execute_batch_workflows
      { workflows := [WorkflowType.photoAnalysisProcessing],
        fail_fast := true }
      (fun k _ => mkExec "x" k WorkflowStatus.completed 5) "b1" 0 2 =
      Except.error "cannot reuse already awaited coroutine" := rfl

/-! ### C3: a terminal record is overwritten by the drain loop -/



/-- C3 refuted on a reachable trace: after `actsC3pre` the record `w1` is in
the terminal state `TIMEOUT`, and the drain loop's subsequent write-back
(lines 370–375 have no terminal-state guard) moves it to `COMPLETED`. -/
theorem C3_terminal_record_overwritten :
    statusAt (runSys actsC3pre initSys) "w1" = some WorkflowStatus.timeout ∧
    WorkflowStatus.timeout.isTerminal = true ∧
    statusAt (runSys (actsC3pre ++ actsC3tail) initSys) "w1" =
      some WorkflowStatus.completed ∧
    WorkflowStatus.timeout ≠ WorkflowStatus.completed := by
  refine ⟨by decide, by decide, by decide, by decide⟩

/-! ### C6: ledger pruning -/

lemma pruneHistory_length_le (l : List WorkflowExecution) :
    (pruneHistory l).length ≤ 1000 := by
  unfold pruneHistory
  split
  · simp [List.length_take]
  · omega

lemma update_metrics_store_length_le (m : Manager) (e : WorkflowExecution)
    (k : WorkflowType) (h : (m.metrics_store k).length ≤ 1000) :
    ((m.update_metrics e).metrics_store k).length ≤ 1000 := by
  unfold Manager.update_metrics
  dsimp only
  split
  · exact pruneHistory_length_le _
  · exact h

lemma foldMetrics_length_le (rs : List WorkflowExecution) :
    ∀ (m : Manager) (k : WorkflowType),
    (m.metrics_store k).length ≤ 1000 →
    ((foldMetrics m rs).metrics_store k).length ≤ 1000 := by
  induction rs with
  | nil => intro m k h; exact h
  | cons e rest ih =>
    intro m k h
    show ((foldMetrics (m.update_metrics e) rest).metrics_store k).length ≤ 1000
    exact ih _ _ (update_metrics_store_length_le m e k h)

lemma descLE_trans (a b c : WorkflowExecution) (hab : descLE a b)
    (hbc : descLE b c) : descLE a c := by
  simp only [descLE, decide_eq_true_eq] at *
  exact le_trans hbc hab

lemma descLE_total (a b : WorkflowExecution) : descLE a b || descLE b a := by
  simp only [descLE, Bool.or_eq_true, decide_eq_true_eq]
  exact le_total _ _

lemma sortedDesc_mergeSort (l : List WorkflowExecution) :
    (l.mergeSort descLE).Pairwise
      (fun a b => b.started_at ≤ a.started_at) := by
  have h := List.sorted_mergeSort descLE_trans descLE_total l
  exact h.imp (fun hab => by simpa [descLE] using hab)

/-- A stable descending sort of any permutation of a strictly descending list
is that list: Python's `sorted(key=started_at, reverse=True)` determines the
arrangement uniquely when the submission times are distinct. -/
lemma mergeSort_descLE_eq_of_perm {l target : List WorkflowExecution}
    (hp : l.Perm target)
    (ht : target.Pairwise (fun a b => b.started_at < a.started_at)) :
    l.mergeSort descLE = target := by
  have hperm : (l.mergeSort descLE).Perm target :=
    (List.mergeSort_perm l descLE).trans hp
  have hne : target.Pairwise (fun a b => a.started_at ≠ b.started_at) :=
    ht.imp (fun h => ne_of_gt h)
  have hneSort : (l.mergeSort descLE).Pairwise
      (fun a b => a.started_at ≠ b.started_at) :=
    (List.Perm.pairwise_iff (fun h => h.symm) hperm).mpr hne
  have hsorted : (l.mergeSort descLE).Pairwise
      (fun a b => b.started_at < a.started_at) :=
    ((sortedDesc_mergeSort l).and hneSort).imp
      (fun h => lt_of_le_of_ne h.1 (h.2.symm))
  haveI : IsAntisymm WorkflowExecution
      (fun a b => b.started_at < a.started_at) :=
    ⟨fun a b hab hba => absurd hba (lt_asymm hab)⟩
  exact List.eq_of_perm_of_sorted hperm hsorted ht

lemma foldHist_append (l : List WorkflowExecution) (a : WorkflowExecution) :
    foldHist (l ++ [a]) = stepHist (foldHist l) a := by
  simp [foldHist, List.foldl_append]

/-- Inserting records with strictly increasing submission times: the history
is the whole inserted sequence while it fits, and afterwards the 1000 most
recent entries in descending order. -/
lemma foldHist_eq_of_timeAsc (rs : List WorkflowExecution) (h : TimeAsc rs) :
    foldHist rs =
      if rs.length ≤ 1000 then rs
      else (rs.drop (rs.length - 1000)).reverse := by
  induction rs using List.reverseRecOn with
  | nil => simp [foldHist]
  | append_singleton l a ih =>
    have hP : (l ++ [a]).Pairwise
        (fun x y => x.started_at < y.started_at) := h
    rw [List.pairwise_append] at hP
    obtain ⟨hl, _, hcross⟩ := hP
    have hxa : ∀ x ∈ l, x.started_at < a.started_at := fun x hx =>
      hcross x hx a (List.mem_singleton_self a)
    rw [foldHist_append, ih hl]
    by_cases hn : l.length ≤ 1000
    · rw [if_pos hn]
      unfold stepHist pruneHistory
      by_cases hn1 : (l ++ [a]).length > 1000
      · rw [if_pos hn1]
        have hsort : (l ++ [a]).mergeSort descLE = (l ++ [a]).reverse := by
          apply mergeSort_descLE_eq_of_perm
          · exact (List.reverse_perm _).symm
          · rw [List.pairwise_reverse]
            exact h
        rw [hsort, List.take_reverse,
          if_neg (by simp only [List.length_append, List.length_cons,
            List.length_nil] at hn1 ⊢; omega)]
      · rw [if_neg hn1,
          if_pos (by simp only [List.length_append, List.length_cons,
            List.length_nil] at hn1 ⊢; omega)]
    · rw [if_neg hn]
      unfold stepHist pruneHistory
      have hHlen : ((l.drop (l.length - 1000)).reverse).length = 1000 := by
        simp only [List.length_reverse, List.length_drop]
        omega
      have hlen1 : ((l.drop (l.length - 1000)).reverse ++ [a]).length > 1000 := by
        simp [hHlen]
      rw [if_pos hlen1]
      have hHdesc : ((l.drop (l.length - 1000)).reverse).Pairwise
          (fun x y => y.started_at < x.started_at) := by
        rw [List.pairwise_reverse]
        exact hl.sublist (List.drop_sublist _ _)
      have hmem : ∀ x ∈ (l.drop (l.length - 1000)).reverse,
          x.started_at < a.started_at := by
        intro x hx
        exact hxa x ((List.drop_sublist _ _).subset (List.mem_reverse.mp hx))
      have hsort : ((l.drop (l.length - 1000)).reverse ++ [a]).mergeSort
          descLE = a :: (l.drop (l.length - 1000)).reverse := by
        apply mergeSort_descLE_eq_of_perm
        · exact List.perm_append_singleton a _
        · rw [List.pairwise_cons]
          exact ⟨fun y hy => hmem y hy, hHdesc⟩
      rw [hsort]
      have h999 : (1000 : Nat) = 999 + 1 := rfl
      rw [h999, List.take_succ_cons]
      have hHtake : ((l.drop (l.length - 1000)).reverse).take 999 =
          (l.drop (l.length + 1 - 1000)).reverse := by
        rw [List.take_reverse, List.drop_drop]
        have hidx : (l.drop (l.length - 1000)).length - 999 +
            (l.length - 1000) = l.length + 1 - 1000 := by
          simp only [List.length_drop]
          omega
        rw [← hidx]
        ring_nf
      have hRHS : (l ++ [a]).drop ((l ++ [a]).length - 1000) =
          l.drop (l.length + 1 - 1000) ++ [a] := by
        have hlen2 : (l ++ [a]).length - 1000 = l.length + 1 - 1000 := by
          simp
        rw [hlen2, List.drop_append_of_le_length (by omega)]
      rw [hHtake,
        if_neg (by simp only [List.length_append, List.length_cons,
          List.length_nil]; omega),
        hRHS, List.reverse_append]
      simp

lemma le_getLast_of_timeAsc (xs : List WorkflowExecution) (h : TimeAsc xs)
    (hne : xs ≠ []) :
    ∀ x ∈ xs, x.started_at ≤ (xs.getLast hne).started_at := by
  intro x hx
  obtain ⟨i, hi, rfl⟩ := List.mem_iff_getElem.mp hx
  have hlast : xs.getLast hne = xs[xs.length - 1] :=
    List.getLast_eq_getElem xs hne
  rw [hlast]
  rcases Nat.lt_or_ge i (xs.length - 1) with hlt | hge
  · exact le_of_lt (List.pairwise_iff_getElem.mp h i (xs.length - 1) hi
      (by omega) hlt)
  · have hieq : i = xs.length - 1 := by omega
    subst hieq
    exact le_refl _

lemma foldMetrics_store_eq (rs : List WorkflowExecution) :
    ∀ (m : Manager) (k : WorkflowType), (∀ e ∈ rs, e.workflow_type = k) →
    (foldMetrics m rs).metrics_store k =
      rs.foldl stepHist (m.metrics_store k) := by
  induction rs with
  | nil => intro m k _; rfl
  | cons e rest ih =>
    intro m k hk
    have he : e.workflow_type = k := hk e (by simp)
    have h1 : (m.update_metrics e).metrics_store k =
        stepHist (m.metrics_store k) e := by
      unfold Manager.update_metrics stepHist
      dsimp only
      rw [if_pos he.symm, he]
    show (foldMetrics (m.update_metrics e) rest).metrics_store k =
      rest.foldl stepHist (stepHist (m.metrics_store k) e)
    rw [ih _ _ (fun x hx => hk x (by simp [hx])), h1]

/-- C6: after any sequence of insertions each kind's history stays within the
bound of 1000; and inserting 1005 records of one kind with strictly
increasing submission times keeps exactly the 1000 most recent: the retained
history has 1000 entries, is a permutation of the inserted sequence minus its
5 oldest records, draws only on inserted records, and retains a record whose
submission time dominates all 1005 inserted ones. -/
theorem C6_ledger_pruning_bound_and_eviction :
    (∀ (m : Manager) (rs : List WorkflowExecution) (k : WorkflowType),
      (m.metrics_store k).length ≤ 1000 →
      ((foldMetrics m rs).metrics_store k).length ≤ 1000) ∧
    (∀ (rs : List WorkflowExecution) (k : WorkflowType),
      (∀ e ∈ rs, e.workflow_type = k) → TimeAsc rs → rs.length = 1005 →
      ((foldMetrics Manager.init rs).metrics_store k).length = 1000 ∧
      ((foldMetrics Manager.init rs).metrics_store k).Perm (rs.drop 5) ∧
      (∀ e ∈ (foldMetrics Manager.init rs).metrics_store k, e ∈ rs) ∧
      (∃ e ∈ (foldMetrics Manager.init rs).metrics_store k,
        ∀ x ∈ rs, x.started_at ≤ e.started_at)) := by
  constructor
  · intro m rs k h
    exact foldMetrics_length_le rs m k h
  · intro rs k hk hasc hlen
    have hstore : (foldMetrics Manager.init rs).metrics_store k =
        foldHist rs := by
      rw [foldMetrics_store_eq rs Manager.init k hk]
      rfl
    have hchar : foldHist rs = (rs.drop 5).reverse := by
      rw [foldHist_eq_of_timeAsc rs hasc, hlen]
      norm_num
    rw [hstore, hchar]
    have hdlen : (rs.drop 5).length = 1000 := by simp [hlen]
    have hd_ne : rs.drop 5 ≠ [] := by
      intro hc
      rw [hc] at hdlen
      simp at hdlen
    refine ⟨by simp [hdlen], List.reverse_perm _, ?_, ?_⟩
    · intro e he
      exact (List.drop_sublist 5 rs).subset (List.mem_reverse.mp he)
    · refine ⟨(rs.drop 5).getLast hd_ne,
        List.mem_reverse.mpr (List.getLast_mem hd_ne), ?_⟩
      intro x hx
      have hsplit : rs.take 5 ++ rs.drop 5 = rs := List.take_append_drop 5 rs
      have hasc' : (rs.take 5 ++ rs.drop 5).Pairwise
          (fun a b => a.started_at < b.started_at) := by
        rw [hsplit]
        exact hasc
      rw [List.pairwise_append] at hasc'
      obtain ⟨_, hdasc, hcross⟩ := hasc'
      rw [← hsplit] at hx
      rcases List.mem_append.mp hx with hx5 | hxd
      · exact le_of_lt (hcross x hx5 _ (List.getLast_mem hd_ne))
      · exact le_getLast_of_timeAsc (rs.drop 5) hdasc hd_ne x hxd

/-- Witness for C6: 1005 records of one kind with submission times 0, 1, …,
1004. -/
theorem C6_ledger_pruning_bound_and_eviction_witness :
    ((foldMetrics Manager.init rs1005).metrics_store
        WorkflowType.customerAnalysis).length = 1000 ∧
    ((foldMetrics Manager.init rs1005).metrics_store
        WorkflowType.customerAnalysis).Perm (rs1005.drop 5) ∧
    (∀ e ∈ (foldMetrics Manager.init rs1005).metrics_store
        WorkflowType.customerAnalysis, e ∈ rs1005) ∧
    (∃ e ∈ (foldMetrics Manager.init rs1005).metrics_store
        WorkflowType.customerAnalysis,
      ∀ x ∈ rs1005, x.started_at ≤ e.started_at) :=
  C6_ledger_pruning_bound_and_eviction.2 rs1005 WorkflowType.customerAnalysis
    (by intro e he
        simp only [rs1005, List.mem_map] at he
        obtain ⟨i, _, rfl⟩ := he
        rfl)
    (by show ((List.range 1005).map ascExec).Pairwise
          (fun a b => a.started_at < b.started_at)
        rw [List.pairwise_map]
        exact (List.pairwise_lt_range 1005).imp
          (fun hij => by simp only [ascExec, mkExec]; exact_mod_cast hij))
    (by simp [rs1005])

end RatEval

end Sanzo
